import Mathlib

/-!
Verification of the pgx.v5 tracing contrib package (dd-trace-go).

Shallow embedding of `src/contrib/jackc/pgx.v5/{pgx,pool,tx}.go`.

The external collaborators (the `tracer` package's span engine and SQL
comment carrier, the underlying `pgxpool.Pool` / `pgx.Tx` client and the
runtime execution-trace task API) are modelled at their interfaces, as the
spec directs: span start options are applied in order to a span record,
the comment carrier is an abstract function supplied by an environment,
and the underlying client is a record of response functions.  Machine
integers (span ids, error identities, results) are modelled as `Nat`; the
`float64` analytics rate is modelled as `Option ℚ` where `none` stands
for NaN (the "unset" marker the Go code tests with `math.IsNaN`).
-/

set_option autoImplicit false

namespace PgxV5

/-- Values a span tag can hold in this model: strings, booleans, the
rational analytics rate, or an error identity. -/
inductive TagValue where
  | str (s : String)
  | bool (b : Bool)
  | rat (q : ℚ)
  | err (e : Nat)
deriving DecidableEq, Repr

/-- A finalized-or-open span.  `tags` is the sequence of tag assignments in
the order they were applied; the effective value of a key is the last
assignment for it (Go map overwrite semantics for start options, and
`span.SetTag` overwrite semantics afterwards). -/
structure Span where
  name : String
  startTime : Option Nat
  spanID : Option Nat
  tags : List (String × TagValue)
  finished : Bool
deriving DecidableEq, Repr

/-- Last-wins lookup in a tag-assignment sequence: later entries in the
list override earlier ones. -/
def lookupLast (k : String) : List (String × TagValue) → Option TagValue
  | [] => none
  | p :: rest => (lookupLast k rest).or (if p.1 = k then some p.2 else none)

/-- The effective value of tag `k` on a span. -/
def Span.getTag (sp : Span) (k : String) : Option TagValue :=
  lookupLast k sp.tags

/-- `span.SetTag(k, v)`: a later assignment of `k`. -/
def Span.SetTag (sp : Span) (k : String) (v : TagValue) : Span :=
  { sp with tags := sp.tags ++ [(k, v)] }

/-- `span.Finish()`. -/
def Span.Finish (sp : Span) : Span :=
  { sp with finished := true }

/-- The span start options the pgx.v5 code uses.  `tracer.ServiceName` and
`tracer.SpanType` are tag writers for the `ext.ServiceName` /
`ext.SpanType` keys; `tracer.StartTime` and `tracer.WithSpanID` set the
corresponding start-config fields. -/
inductive StartSpanOption where
  | serviceName (s : String)
  | spanType (s : String)
  | startTime (t : Nat)
  | tag (k : String) (v : TagValue)
  | withSpanID (id : Nat)
deriving DecidableEq, Repr

/-- The mutable `tracer.StartSpanConfig` that options are applied to. -/
structure StartSpanCfg where
  startTime : Option Nat
  spanID : Option Nat
  tags : List (String × TagValue)
deriving DecidableEq, Repr

/-- Application of one start option to the start config (options run in
the order they are passed to `StartSpanFromContext`). -/
def applyOpt (c : StartSpanCfg) : StartSpanOption → StartSpanCfg
  | .serviceName s => { c with tags := c.tags ++ [("service.name", .str s)] }
  | .spanType s => { c with tags := c.tags ++ [("span.type", .str s)] }
  | .startTime t => { c with startTime := some t }
  | .tag k v => { c with tags := c.tags ++ [(k, v)] }
  | .withSpanID id => { c with spanID := some id }

/-- `tracer.StartSpanFromContext(ctx, name, opts...)`: build the span by
applying the options in order to an empty start config.  (Parenting from
the ambient span does not affect any claim and is not recorded.) -/
def startSpanFromContext (spanName : String) (opts : List StartSpanOption) : Span :=
  let c := opts.foldl applyOpt { startTime := none, spanID := none, tags := [] }
  { name := spanName, startTime := c.startTime, spanID := c.spanID,
    tags := c.tags, finished := false }

/-- `ddtrace.SpanContext` of an ambient span (only its identity matters
to this model). -/
structure SpanContext where
  traceID : Nat
  spanID : Nat
deriving DecidableEq, Repr

/-- `tracer.DBMPropagationMode` ("" / "disabled" / "service" / "full"). -/
inductive DBMPropagationMode where
  | undefined
  | disabled
  | service
  | full
deriving DecidableEq, Repr

/-- `QueryType` is a string type in the source. -/
abbrev QueryType := String

def QueryTypeConnect : QueryType := "Connect"
def QueryTypeQuery : QueryType := "Query"
def QueryTypePing : QueryType := "Ping"
def QueryTypePrepare : QueryType := "Prepare"
def QueryTypeExec : QueryType := "Exec"
def QueryTypeBegin : QueryType := "Begin"
def QueryTypeClose : QueryType := "Close"
def QueryTypeCommit : QueryType := "Commit"
def QueryTypeRollback : QueryType := "Rollback"
def QueryTypeCopyFrom : QueryType := "CopyFrom"

def keyDBMTraceInjected : String := "_dd.dbm_trace_injected"

/-- The tracer configuration held by the facade (`config` in option.go;
its fields are read by pool.go/tx.go exactly as modelled here).
`analyticsRate = none` models NaN, `ignoreQueryTypes = none` and
`tags = none` model nil maps, `errCheck = none` models a nil function
field.  Go map iteration order is unspecified, so the maps are carried as
association lists. -/
structure config where
  serviceName : String
  spanName : String
  analyticsRate : Option ℚ
  ignoreQueryTypes : Option (List QueryType)
  childSpansOnly : Bool
  errCheck : Option (Nat → Bool)
  tags : Option (List (String × TagValue))
  dbmPropagationMode : DBMPropagationMode

/-- `traceParams` stores all information related to tracing. -/
structure traceParams where
  cfg : config
  meta : List (String × String)

/-- The caller's `context.Context`, restricted to what the code reads
from it: the ambient span (for `tracer.SpanFromContext`) and the
`WithSpanTags` mapping stored under `spanTagsKey`. -/
structure Context where
  ambientSpan : Option SpanContext
  spanTags : Option (List (String × String))

/-- The state of a `tracer.SQLCommentCarrier` after `Inject` ran
(fields `Query` and `SpanID`), plus `Inject`'s returned error. -/
structure InjectResult where
  Query : String
  SpanID : Nat
  injectErr : Option Nat

/-- The external tracer/runtime environment: the behavior of
`SQLCommentCarrier.Inject` (as a function of the ambient span context and
the carrier fields `Query`, `Mode`, `DBServiceName` set by the caller),
and whether `runtime/trace` collection is enabled. -/
structure Env where
  inject : Option SpanContext → String → DBMPropagationMode → String → InjectResult
  traceEnabled : Bool

def warnMsg : String := "contrib/jackc/pgx.v5: failed to inject query comments"

/-- `traceParams.injectComments`: reads the ambient span context, runs the
carrier's `Inject`, logs a warning if it failed (the error is otherwise
swallowed), and returns the carrier's query and span id regardless.  The
third component is the list of log lines produced. -/
def traceParams.injectComments (env : Env) (tp : traceParams) (ctx : Context)
    (query : String) (mode : DBMPropagationMode) : String × Nat × List String :=
  let res := env.inject ctx.ambientSpan query mode tp.cfg.serviceName
  (res.Query, res.SpanID,
    match res.injectErr with
    | some _ => [warnMsg]
    | none => [])

/-- `withDBMTraceInjectedTag`. -/
def withDBMTraceInjectedTag (mode : DBMPropagationMode) : List StartSpanOption :=
  if mode = .full then [.tag keyDBMTraceInjected (.bool true)] else []

/-- The `for k, v := range m { span.SetTag(k, v) }` loop of `tryTrace`. -/
def setTags (sp : Span) (l : List (String × String)) : Span :=
  l.foldl (fun (s : Span) (p : String × String) => s.SetTag p.1 (.str p.2)) sp

/-- `traceParams.tryTrace`: the span emitter.  Returns `none` when span
creation is suppressed, otherwise the single finished span. -/
def traceParams.tryTrace (tp : traceParams) (ctx : Context) (qtype : QueryType)
    (query : String) (startTime : Nat) (err : Option Nat)
    (spanOpts : List StartSpanOption) : Option Span :=
  if tp.cfg.ignoreQueryTypes.any (fun ts => ts.contains qtype) then none
  else if tp.cfg.childSpansOnly && ctx.ambientSpan.isNone then none
  else
    let opts := spanOpts ++
      [StartSpanOption.serviceName tp.cfg.serviceName,
       StartSpanOption.spanType "sql",
       StartSpanOption.startTime startTime,
       StartSpanOption.tag "component" (.str "pgx/v5"),
       StartSpanOption.tag "span.kind" (.str "client"),
       StartSpanOption.tag "db.system" (.str "postgres")]
    let opts := opts ++
      (match tp.cfg.tags with
       | some ts => ts.map (fun p => StartSpanOption.tag p.1 p.2)
       | none => [])
    let opts := opts ++
      (match tp.cfg.analyticsRate with
       | some r => [StartSpanOption.tag "_dd1.sr.eausr" (.rat r)]
       | none => [])
    let span := startSpanFromContext tp.cfg.spanName opts
    let resource := if query = "" then qtype else query
    let span := span.SetTag "sql.query_type" (.str qtype)
    let span := span.SetTag "resource.name" (.str resource)
    let span := setTags span tp.meta
    let span :=
      match ctx.spanTags with
      | some m => setTags span m
      | none => span
    let span :=
      match err with
      | some e => if tp.cfg.errCheck.elim true (fun f => f e)
                  then span.SetTag "error" (.err e) else span
      | none => span
    some span.Finish

/-- Observable events of one traced method call, in execution order. -/
inductive Event where
  | injectedComment (mode : DBMPropagationMode) (cquery : String)
  | taskStart (name : String)
  | delegated (op : String) (sql : String)
  | spanFinished (sp : Span)
  | taskEnd (name : String)
deriving DecidableEq, Repr

/-- Events of `startTraceTask`: a task starts only when runtime tracing
is enabled (otherwise the end callback is `noopTaskEnd`). -/
def taskStartEvents (enabled : Bool) (name : String) : List Event :=
  if enabled then [.taskStart name] else []

/-- Events of the `defer end()` callback, fired at method return. -/
def taskEndEvents (enabled : Bool) (name : String) : List Event :=
  if enabled then [.taskEnd name] else []

/-- Event of the span emitter finishing a span (empty when suppressed). -/
def spanEvents (sp : Option Span) : List Event :=
  match sp with
  | some s => [.spanFinished s]
  | none => []

/-- The spans finished during a run's event trace. -/
def spansOf (evs : List Event) : List Span :=
  evs.filterMap (fun e =>
    match e with
    | .spanFinished s => some s
    | _ => none)

/-- Result of one traced method call: its returned value, event trace,
log lines, and the span the emitter finished (if any). -/
structure MethodRun (α : Type) where
  result : α
  events : List Event
  logs : List String
  span : Option Span

/-- The wrapped `pgx.Tx`, as response functions of the SQL text it is
handed (results and error identities are abstract `Nat`s). -/
structure PgxTx where
  execRes : String → Nat × Option Nat
  queryRes : String → Nat × Option Nat
  queryRowRes : String → Nat
  prepareRes : String → String → Nat × Option Nat
  commitRes : Option Nat
  rollbackRes : Option Nat
  copyFromRes : Nat × Option Nat

/-- `tracedTx`: the transaction facade (`tp` is the embedded
`*traceParams`). -/
structure tracedTx where
  Tx : PgxTx
  tp : traceParams

/-- `tracedTx.Commit`.  `start` models `time.Now()`. -/
def tracedTx.Commit (env : Env) (t : tracedTx) (ctx : Context) (start : Nat) :
    MethodRun (Option Nat) :=
  let err := t.Tx.commitRes
  let sp := t.tp.tryTrace ctx QueryTypeCommit "" start err []
  { result := err,
    events := taskStartEvents env.traceEnabled QueryTypeCommit ++
      [.delegated "Commit" ""] ++ spanEvents sp ++
      taskEndEvents env.traceEnabled QueryTypeCommit,
    logs := [],
    span := sp }

/-- `tracedTx.Rollback`. -/
def tracedTx.Rollback (env : Env) (t : tracedTx) (ctx : Context) (start : Nat) :
    MethodRun (Option Nat) :=
  let err := t.Tx.rollbackRes
  let sp := t.tp.tryTrace ctx QueryTypeRollback "" start err []
  { result := err,
    events := taskStartEvents env.traceEnabled QueryTypeRollback ++
      [.delegated "Rollback" ""] ++ spanEvents sp ++
      taskEndEvents env.traceEnabled QueryTypeRollback,
    logs := [],
    span := sp }

/-- `tracedTx.Prepare`: the configured propagation mode is downgraded from
full to service before injection; the underlying call gets the rewritten
query, the emitter the original one. -/
def tracedTx.Prepare (env : Env) (t : tracedTx) (ctx : Context) (start : Nat)
    (name query : String) : MethodRun (Nat × Option Nat) :=
  let mode := if t.tp.cfg.dbmPropagationMode = .full then .service
              else t.tp.cfg.dbmPropagationMode
  let inj := t.tp.injectComments env ctx query mode
  let res := t.Tx.prepareRes name inj.1
  let sp := t.tp.tryTrace ctx QueryTypePrepare query start res.2
    (withDBMTraceInjectedTag mode ++ [.withSpanID inj.2.1])
  { result := res,
    events := [.injectedComment mode inj.1] ++
      taskStartEvents env.traceEnabled QueryTypePrepare ++
      [.delegated "Prepare" inj.1] ++ spanEvents sp ++
      taskEndEvents env.traceEnabled QueryTypePrepare,
    logs := inj.2.2,
    span := sp }

/-- `tracedTx.Exec`. -/
def tracedTx.Exec (env : Env) (t : tracedTx) (ctx : Context) (start : Nat)
    (query : String) : MethodRun (Nat × Option Nat) :=
  let inj := t.tp.injectComments env ctx query t.tp.cfg.dbmPropagationMode
  let res := t.Tx.execRes inj.1
  let sp := t.tp.tryTrace ctx QueryTypeExec query start res.2
    (withDBMTraceInjectedTag t.tp.cfg.dbmPropagationMode ++ [.withSpanID inj.2.1])
  { result := res,
    events := [.injectedComment t.tp.cfg.dbmPropagationMode inj.1] ++
      taskStartEvents env.traceEnabled QueryTypeExec ++
      [.delegated "Exec" inj.1] ++ spanEvents sp ++
      taskEndEvents env.traceEnabled QueryTypeExec,
    logs := inj.2.2,
    span := sp }

/-- `tracedTx.Query`. -/
def tracedTx.Query (env : Env) (t : tracedTx) (ctx : Context) (start : Nat)
    (query : String) : MethodRun (Nat × Option Nat) :=
  let inj := t.tp.injectComments env ctx query t.tp.cfg.dbmPropagationMode
  let res := t.Tx.queryRes inj.1
  let sp := t.tp.tryTrace ctx QueryTypeQuery query start res.2
    (withDBMTraceInjectedTag t.tp.cfg.dbmPropagationMode ++ [.withSpanID inj.2.1])
  { result := res,
    events := [.injectedComment t.tp.cfg.dbmPropagationMode inj.1] ++
      taskStartEvents env.traceEnabled QueryTypeQuery ++
      [.delegated "Query" inj.1] ++ spanEvents sp ++
      taskEndEvents env.traceEnabled QueryTypeQuery,
    logs := inj.2.2,
    span := sp }

/-- `tracedTx.QueryRow`: no error is surfaced by the underlying call
(`pgx.Row` defers errors to `Scan`), and the emitter is invoked with a
nil error.  The diagnostic task is named `QueryTypeQuery` in the source. -/
def tracedTx.QueryRow (env : Env) (t : tracedTx) (ctx : Context) (start : Nat)
    (query : String) : MethodRun Nat :=
  let inj := t.tp.injectComments env ctx query t.tp.cfg.dbmPropagationMode
  let r := t.Tx.queryRowRes inj.1
  let sp := t.tp.tryTrace ctx QueryTypeQuery query start none
    (withDBMTraceInjectedTag t.tp.cfg.dbmPropagationMode ++ [.withSpanID inj.2.1])
  { result := r,
    events := [.injectedComment t.tp.cfg.dbmPropagationMode inj.1] ++
      taskStartEvents env.traceEnabled QueryTypeQuery ++
      [.delegated "QueryRow" inj.1] ++ spanEvents sp ++
      taskEndEvents env.traceEnabled QueryTypeQuery,
    logs := inj.2.2,
    span := sp }

/-- `tracedTx.CopyFrom`: no comment injection; the resource string is
synthesized from the sanitized table identifier
(`fmt.Sprintf("copy_from %s", tableName.Sanitize())`; `Sanitize` is
external to this package, so its output is taken as the input here). -/
def tracedTx.CopyFrom (env : Env) (t : tracedTx) (ctx : Context) (start : Nat)
    (tableNameSanitized : String) : MethodRun (Nat × Option Nat) :=
  let res := t.Tx.copyFromRes
  let sp := t.tp.tryTrace ctx QueryTypeCopyFrom
    ("copy_from " ++ tableNameSanitized) start res.2 []
  { result := res,
    events := taskStartEvents env.traceEnabled QueryTypeCopyFrom ++
      [.delegated "CopyFrom" ("copy_from " ++ tableNameSanitized)] ++
      spanEvents sp ++ taskEndEvents env.traceEnabled QueryTypeCopyFrom,
    logs := [],
    span := sp }

/-- The wrapped `pgxpool.Pool`: `BeginTx` hands back a transaction handle
and an error. -/
structure PgxPool where
  beginTxRes : PgxTx × Option Nat

/-- `LooselyTracedPool`. -/
structure LooselyTracedPool where
  Pool : PgxPool
  tp : traceParams

/-- `LooselyTracedPool.BeginTx`: delegates, emits a Begin span with no
SQL text, and on success wraps the handle in a `tracedTx` sharing the
same `traceParams`; on failure returns the error untouched. -/
def LooselyTracedPool.BeginTx (env : Env) (p : LooselyTracedPool) (ctx : Context)
    (start : Nat) : MethodRun (Option tracedTx × Option Nat) :=
  let res := p.Pool.beginTxRes
  let sp := p.tp.tryTrace ctx QueryTypeBegin "" start res.2 []
  { result :=
      match res.2 with
      | some e => (none, some e)
      | none => (some { Tx := res.1, tp := p.tp }, none),
    events := taskStartEvents env.traceEnabled QueryTypeBegin ++
      [.delegated "Begin" ""] ++ spanEvents sp ++
      taskEndEvents env.traceEnabled QueryTypeBegin,
    logs := [],
    span := sp }

/-! ### Helper functions describing option lists and the merged tag set -/

/-- Tag assignments contributed by a start-option list, in order. -/
def optTags : List StartSpanOption → List (String × TagValue)
  | [] => []
  | .serviceName s :: rest => ("service.name", .str s) :: optTags rest
  | .spanType s :: rest => ("span.type", .str s) :: optTags rest
  | .startTime _ :: rest => optTags rest
  | .tag k v :: rest => (k, v) :: optTags rest
  | .withSpanID _ :: rest => optTags rest

/-- Last span-id override in a start-option list. -/
def optSpanID : List StartSpanOption → Option Nat
  | [] => none
  | .withSpanID i :: rest => (optSpanID rest).or (some i)
  | _ :: rest => optSpanID rest

/-- Last start-time override in a start-option list. -/
def optStartTime : List StartSpanOption → Option Nat
  | [] => none
  | .startTime t :: rest => (optStartTime rest).or (some t)
  | _ :: rest => optStartTime rest

/-- The always-set option tags of `tryTrace`, as pairs. -/
def fixedPairs (tp : traceParams) : List (String × TagValue) :=
  [("service.name", .str tp.cfg.serviceName), ("span.type", .str "sql"),
   ("component", .str "pgx/v5"), ("span.kind", .str "client"),
   ("db.system", .str "postgres")]

/-- The static config tags `tryTrace` appends (nil map contributes
nothing). -/
def cfgTagPairs (tp : traceParams) : List (String × TagValue) :=
  match tp.cfg.tags with
  | some ts => ts
  | none => []

/-- The analytics sample-rate tag, present exactly when the rate is a
valid number (not NaN). -/
def analyticsPairs (tp : traceParams) : List (String × TagValue) :=
  match tp.cfg.analyticsRate with
  | some r => [("_dd1.sr.eausr", TagValue.rat r)]
  | none => []

/-- The per-facade metadata tag assignments. -/
def metaPairs (tp : traceParams) : List (String × TagValue) :=
  tp.meta.map (fun p => (p.1, TagValue.str p.2))

/-- The ambient `WithSpanTags` tag assignments read from the context. -/
def ambientPairs (ctx : Context) : List (String × TagValue) :=
  (ctx.spanTags.getD []).map (fun p => (p.1, TagValue.str p.2))

/-- The error tag assignment, when the error is reportable. -/
def errPairs (tp : traceParams) (err : Option Nat) : List (String × TagValue) :=
  match err with
  | some e => if tp.cfg.errCheck.elim true (fun f => f e)
              then [("error", TagValue.err e)] else []
  | none => []

/-- The error-tag value the emitter assigns: the error when it is
non-nil and reportable (no classifier configured, or classifier true),
otherwise nothing. -/
def errTagValue (tp : traceParams) (err : Option Nat) : Option TagValue :=
  match err with
  | some e => if tp.cfg.errCheck.elim true (fun f => f e)
              then some (TagValue.err e) else none
  | none => none

/-- The suppression condition of `tryTrace` (either guard hit). -/
def suppressed (tp : traceParams) (ctx : Context) (qtype : QueryType) : Bool :=
  tp.cfg.ignoreQueryTypes.any (fun ts => ts.contains qtype) ||
    (tp.cfg.childSpansOnly && ctx.ambientSpan.isNone)

/-! ### Basic lemmas -/

theorem oOr_assoc {α : Type} (a b c : Option α) :
    (a.or b).or c = a.or (b.or c) := by
  cases a <;> rfl

theorem oOr_none_right {α : Type} (a : Option α) : a.or none = a := by
  cases a <;> rfl

theorem oOr_none_left {α : Type} (a : Option α) : Option.or none a = a := rfl

theorem oOr_some_left {α : Type} (x : α) (a : Option α) :
    Option.or (some x) a = some x := rfl

theorem optTags_append (a b : List StartSpanOption) :
    optTags (a ++ b) = optTags a ++ optTags b := by
  induction a with
  | nil => rfl
  | cons o rest ih => cases o <;> simp [optTags, ih]

theorem optSpanID_append (a b : List StartSpanOption) :
    optSpanID (a ++ b) = (optSpanID b).or (optSpanID a) := by
  induction a with
  | nil => exact (oOr_none_right _).symm
  | cons o rest ih => cases o <;> simp [optSpanID, ih, oOr_assoc]

theorem optStartTime_append (a b : List StartSpanOption) :
    optStartTime (a ++ b) = (optStartTime b).or (optStartTime a) := by
  induction a with
  | nil => exact (oOr_none_right _).symm
  | cons o rest ih => cases o <;> simp [optStartTime, ih, oOr_assoc]

theorem optTags_map_tag (ts : List (String × TagValue)) :
    optTags (ts.map (fun p => StartSpanOption.tag p.1 p.2)) = ts := by
  induction ts with
  | nil => rfl
  | cons p rest ih => simp [optTags, ih]

theorem optSpanID_map_tag (ts : List (String × TagValue)) :
    optSpanID (ts.map (fun p => StartSpanOption.tag p.1 p.2)) = none := by
  induction ts with
  | nil => rfl
  | cons p rest ih => simp [optSpanID, ih]

theorem optStartTime_map_tag (ts : List (String × TagValue)) :
    optStartTime (ts.map (fun p => StartSpanOption.tag p.1 p.2)) = none := by
  induction ts with
  | nil => rfl
  | cons p rest ih => simp [optStartTime, ih]

theorem foldl_applyOpt (opts : List StartSpanOption) (c : StartSpanCfg) :
    opts.foldl applyOpt c =
      { startTime := (optStartTime opts).or c.startTime,
        spanID := (optSpanID opts).or c.spanID,
        tags := c.tags ++ optTags opts } := by
  induction opts generalizing c with
  | nil => simp [optTags, optSpanID, optStartTime]
  | cons o rest ih =>
    cases o <;>
      simp [List.foldl, applyOpt, optTags, optSpanID, optStartTime, ih,
        oOr_assoc, List.append_assoc]

theorem setTags_char (l : List (String × String)) (sp : Span) :
    setTags sp l = { sp with tags := sp.tags ++ l.map (fun p => (p.1, TagValue.str p.2)) } := by
  induction l generalizing sp with
  | nil => simp [setTags]
  | cons p rest ih =>
    rw [setTags, List.foldl_cons]
    rw [show (Span.SetTag sp p.1 (.str p.2)) =
      { sp with tags := sp.tags ++ [(p.1, TagValue.str p.2)] } from rfl]
    rw [show List.foldl (fun (s : Span) (p : String × String) => s.SetTag p.1 (.str p.2))
      { sp with tags := sp.tags ++ [(p.1, TagValue.str p.2)] } rest =
      setTags { sp with tags := sp.tags ++ [(p.1, TagValue.str p.2)] } rest from rfl]
    rw [ih]
    simp [List.append_assoc]

theorem startSpanFromContext_char (name : String) (opts : List StartSpanOption) :
    startSpanFromContext name opts =
      { name := name, startTime := optStartTime opts, spanID := optSpanID opts,
        tags := optTags opts, finished := false } := by
  simp [startSpanFromContext, foldl_applyOpt, oOr_none_right]

theorem lookupLast_append (k : String) (a b : List (String × TagValue)) :
    lookupLast k (a ++ b) = (lookupLast k b).or (lookupLast k a) := by
  induction a with
  | nil => exact (oOr_none_right _).symm
  | cons p rest ih => simp [lookupLast, ih, oOr_assoc]

theorem lookupLast_eq_none (k : String) (l : List (String × TagValue))
    (h : k ∉ l.map Prod.fst) : lookupLast k l = none := by
  induction l with
  | nil => rfl
  | cons p rest ih =>
    have h1 : ¬(p.1 = k) := by
      intro hh
      exact h (by simp [hh])
    have h2 : k ∉ rest.map Prod.fst := by
      intro hh
      exact h (by simp [hh])
    simp [lookupLast, ih h2, h1]

/-- Characterization of the span emitted by `tryTrace` when neither
suppression guard fires: its full tag-assignment sequence, start time,
and span id, in the order the code applies them. -/
theorem tryTrace_char (tp : traceParams) (ctx : Context) (qtype : QueryType)
    (query : String) (st : Nat) (err : Option Nat) (spanOpts : List StartSpanOption)
    (h : suppressed tp ctx qtype = false) :
    tp.tryTrace ctx qtype query st err spanOpts = some
      { name := tp.cfg.spanName,
        startTime := some st,
        spanID := optSpanID spanOpts,
        tags := optTags spanOpts ++ fixedPairs tp ++ cfgTagPairs tp ++
          analyticsPairs tp ++
          [("sql.query_type", .str qtype),
           ("resource.name", .str (if query = "" then qtype else query))] ++
          metaPairs tp ++ ambientPairs ctx ++ errPairs tp err,
        finished := true } := by
  simp only [suppressed, Bool.or_eq_false_iff] at h
  obtain ⟨h1, h2⟩ := h
  unfold traceParams.tryTrace
  rw [h1, h2]
  simp only [Bool.false_eq_true, if_false]
  simp only [startSpanFromContext_char, setTags_char]
  cases herr : err with
  | none =>
    cases htags : tp.cfg.tags <;> cases hana : tp.cfg.analyticsRate <;>
      cases hsp : ctx.spanTags <;>
      simp [optTags_append, optSpanID_append, optStartTime_append,
        optTags_map_tag, optSpanID_map_tag, optStartTime_map_tag,
        optTags, optSpanID, optStartTime, Span.SetTag, Span.Finish, setTags_char,
        fixedPairs, cfgTagPairs, analyticsPairs, metaPairs, ambientPairs,
        errPairs, htags, hana, hsp, Option.or, oOr_assoc, oOr_none_right,
        List.append_assoc]
  | some e =>
    by_cases hc : tp.cfg.errCheck.elim true (fun f => f e) <;>
      cases htags : tp.cfg.tags <;> cases hana : tp.cfg.analyticsRate <;>
      cases hsp : ctx.spanTags <;>
      simp [hc, optTags_append, optSpanID_append, optStartTime_append,
        optTags_map_tag, optSpanID_map_tag, optStartTime_map_tag,
        optTags, optSpanID, optStartTime, Span.SetTag, Span.Finish, setTags_char,
        fixedPairs, cfgTagPairs, analyticsPairs, metaPairs, ambientPairs,
        errPairs, htags, hana, hsp, Option.or, oOr_assoc, oOr_none_right,
        List.append_assoc]

/-! ### Spec-side definitions used to state the claims -/

/-- The keys `tryTrace` itself always assigns (fixed option tags, the
query-type/resource tags, the error tag): the tag-source merge-order
claims are about the remaining, user-controlled keys. -/
def reservedSpanKeys : List String :=
  ["service.name", "span.type", "component", "span.kind", "db.system",
   "sql.query_type", "resource.name", "error"]

/-- The merge order claim C1 states, in the claim's own words: static
config tags first, then the analytics tag, then the caller-supplied extra
options, then per-facade metadata, then ambient context tags last, later
entries overriding earlier ones.  Stated here only to be compared with
the order the code implements. -/
def specC1MergeLookup (k : String)
    (cfgTags analytics extras meta ambient : List (String × TagValue)) :
    Option TagValue :=
  lookupLast k (cfgTags ++ analytics ++ extras ++ meta ++ ambient)

def isTaskEnd : Event → Bool
  | .taskEnd _ => true
  | _ => false

def isSpanFinished : Event → Bool
  | .spanFinished _ => true
  | _ => false

/-- The ordering claim C2 states, in the claim's own words: every
diagnostic-task end occurs no later than every span emission — i.e.
no span emission is followed (strictly later) by a task end. -/
def taskEndNoLaterThanEmit : List Event → Bool
  | [] => true
  | Event.spanFinished _ :: rest => !(rest.any isTaskEnd) && taskEndNoLaterThanEmit rest
  | _ :: rest => taskEndNoLaterThanEmit rest

/-- The ordering the code guarantees: every span emission occurs no later
than every diagnostic-task end — no task end is followed by an emission. -/
def emitNoLaterThanTaskEnd : List Event → Bool
  | [] => true
  | Event.taskEnd _ :: rest => !(rest.any isSpanFinished) && emitNoLaterThanTaskEnd rest
  | _ :: rest => emitNoLaterThanTaskEnd rest

def hasTaskEnd (evs : List Event) : Bool := evs.any isTaskEnd

/-- A default span, used to name the span inside an `Option Span` in
closed witness statements. -/
def emptySpan : Span :=
  { name := "", startTime := none, spanID := none, tags := [], finished := false }

/-! ### Derived facts about tryTrace -/

theorem tryTrace_suppressed_eq_none (tp : traceParams) (ctx : Context)
    (qtype : QueryType) (query : String) (st : Nat) (err : Option Nat)
    (spanOpts : List StartSpanOption) (h : suppressed tp ctx qtype = true) :
    tp.tryTrace ctx qtype query st err spanOpts = none := by
  simp only [suppressed, Bool.or_eq_true] at h
  unfold traceParams.tryTrace
  rcases h with h | h
  · rw [h]
    simp
  · cases hg : tp.cfg.ignoreQueryTypes.any (fun ts => ts.contains qtype) <;>
      simp [hg, h]

theorem not_suppressed_of_some (tp : traceParams) (ctx : Context)
    (qtype : QueryType) (query : String) (st : Nat) (err : Option Nat)
    (spanOpts : List StartSpanOption) (sp : Span)
    (hsp : tp.tryTrace ctx qtype query st err spanOpts = some sp) :
    suppressed tp ctx qtype = false := by
  cases hx : suppressed tp ctx qtype
  · rfl
  · rw [tryTrace_suppressed_eq_none tp ctx qtype query st err spanOpts hx] at hsp
    simp at hsp

theorem span_eq_of_some (tp : traceParams) (ctx : Context)
    (qtype : QueryType) (query : String) (st : Nat) (err : Option Nat)
    (spanOpts : List StartSpanOption) (sp : Span)
    (hsp : tp.tryTrace ctx qtype query st err spanOpts = some sp) :
    sp = { name := tp.cfg.spanName,
           startTime := some st,
           spanID := optSpanID spanOpts,
           tags := optTags spanOpts ++ fixedPairs tp ++ cfgTagPairs tp ++
             analyticsPairs tp ++
             [("sql.query_type", .str qtype),
              ("resource.name", .str (if query = "" then qtype else query))] ++
             metaPairs tp ++ ambientPairs ctx ++ errPairs tp err,
           finished := true } := by
  have hf := not_suppressed_of_some tp ctx qtype query st err spanOpts sp hsp
  rw [tryTrace_char tp ctx qtype query st err spanOpts hf] at hsp
  exact (Option.some_inj.mp hsp).symm

theorem tryTrace_spanID (tp : traceParams) (ctx : Context)
    (qtype : QueryType) (query : String) (st : Nat) (err : Option Nat)
    (spanOpts : List StartSpanOption) (sp : Span)
    (hsp : tp.tryTrace ctx qtype query st err spanOpts = some sp) :
    sp.spanID = optSpanID spanOpts := by
  rw [span_eq_of_some tp ctx qtype query st err spanOpts sp hsp]

theorem lookupLast_strPairs_eq_none (k : String) (l : List (String × String))
    (h : k ∉ l.map Prod.fst) :
    lookupLast k (l.map (fun p => (p.1, TagValue.str p.2))) = none := by
  apply lookupLast_eq_none
  simpa using h

theorem lookupLast_errPairs_eq_none (k : String) (tp : traceParams)
    (err : Option Nat) (h : ¬(k = "error")) :
    lookupLast k (errPairs tp err) = none := by
  apply lookupLast_eq_none
  cases err with
  | none => simp [errPairs]
  | some e =>
    by_cases hc : tp.cfg.errCheck.elim true (fun f => f e) <;> simp [errPairs, hc, h]

theorem lookupLast_analyticsPairs_eq_none (k : String) (tp : traceParams)
    (h : ¬(k = "_dd1.sr.eausr")) :
    lookupLast k (analyticsPairs tp) = none := by
  apply lookupLast_eq_none
  cases hana : tp.cfg.analyticsRate <;> simp [analyticsPairs, hana, h]

/-- For a key the emitter does not itself assign, the effective tag value
on the emitted span is the last-wins lookup over: caller-supplied extra
options, then static config tags, then the analytics tag, then per-facade
metadata, then ambient context tags (each later source overriding the
earlier ones). -/
theorem tryTrace_getTag_merge (tp : traceParams) (ctx : Context)
    (qtype : QueryType) (query : String) (st : Nat) (err : Option Nat)
    (spanOpts : List StartSpanOption) (sp : Span) (k : String)
    (hres : k ∉ reservedSpanKeys)
    (hsp : tp.tryTrace ctx qtype query st err spanOpts = some sp) :
    sp.getTag k = lookupLast k (optTags spanOpts ++ cfgTagPairs tp ++
      analyticsPairs tp ++ metaPairs tp ++ ambientPairs ctx) := by
  simp only [reservedSpanKeys, List.mem_cons, List.not_mem_nil, or_false,
    not_or] at hres
  obtain ⟨h1, h2, h3, h4, h5, h6, h7, h8⟩ := hres
  have h1' : ¬("service.name" = k) := fun hh => h1 hh.symm
  have h2' : ¬("span.type" = k) := fun hh => h2 hh.symm
  have h3' : ¬("component" = k) := fun hh => h3 hh.symm
  have h4' : ¬("span.kind" = k) := fun hh => h4 hh.symm
  have h5' : ¬("db.system" = k) := fun hh => h5 hh.symm
  have h6' : ¬("sql.query_type" = k) := fun hh => h6 hh.symm
  have h7' : ¬("resource.name" = k) := fun hh => h7 hh.symm
  have herrp := lookupLast_errPairs_eq_none k tp err h8
  rw [span_eq_of_some tp ctx qtype query st err spanOpts sp hsp]
  simp only [Span.getTag]
  simp [lookupLast_append, lookupLast, fixedPairs, herrp, h1', h2', h3', h4',
    h5', h6', h7', oOr_assoc, oOr_none_right, oOr_none_left, oOr_some_left]

/-- The resource-name tag of an emitted span is the original SQL text
when non-empty, otherwise the operation kind's name — provided the
per-facade metadata and ambient tags do not themselves assign
"resource.name" (those two sources are applied after it). -/
theorem tryTrace_resource (tp : traceParams) (ctx : Context)
    (qtype : QueryType) (query : String) (st : Nat) (err : Option Nat)
    (spanOpts : List StartSpanOption) (sp : Span)
    (hmeta : "resource.name" ∉ tp.meta.map Prod.fst)
    (hamb : "resource.name" ∉ (ctx.spanTags.getD []).map Prod.fst)
    (hsp : tp.tryTrace ctx qtype query st err spanOpts = some sp) :
    sp.getTag "resource.name" =
      some (.str (if query = "" then qtype else query)) := by
  have hmeta' := lookupLast_strPairs_eq_none "resource.name" tp.meta hmeta
  have hamb' := lookupLast_strPairs_eq_none "resource.name" (ctx.spanTags.getD []) hamb
  have herrp := lookupLast_errPairs_eq_none "resource.name" tp err (by decide)
  rw [span_eq_of_some tp ctx qtype query st err spanOpts sp hsp]
  simp only [Span.getTag, metaPairs, ambientPairs]
  simp [lookupLast_append, lookupLast, hmeta', hamb', herrp, oOr_assoc,
    oOr_none_right, oOr_none_left, oOr_some_left]

/-- The error tag of an emitted span is set exactly when the error is
non-nil and reportable — provided no other tag source assigns the key
"error" (the error assignment itself is last and cannot be overridden). -/
theorem tryTrace_errorTag (tp : traceParams) (ctx : Context)
    (qtype : QueryType) (query : String) (st : Nat) (err : Option Nat)
    (spanOpts : List StartSpanOption) (sp : Span)
    (hopts : "error" ∉ (optTags spanOpts).map Prod.fst)
    (hcfg : "error" ∉ (cfgTagPairs tp).map Prod.fst)
    (hmeta : "error" ∉ tp.meta.map Prod.fst)
    (hamb : "error" ∉ (ctx.spanTags.getD []).map Prod.fst)
    (hsp : tp.tryTrace ctx qtype query st err spanOpts = some sp) :
    sp.getTag "error" = errTagValue tp err := by
  have hopts' := lookupLast_eq_none "error" (optTags spanOpts) hopts
  have hcfg' := lookupLast_eq_none "error" (cfgTagPairs tp) hcfg
  have hmeta' := lookupLast_strPairs_eq_none "error" tp.meta hmeta
  have hamb' := lookupLast_strPairs_eq_none "error" (ctx.spanTags.getD []) hamb
  have hana := lookupLast_analyticsPairs_eq_none "error" tp (by decide)
  have hfix : lookupLast "error" (fixedPairs tp) = none := by
    apply lookupLast_eq_none
    simp [fixedPairs]
  have herrv : lookupLast "error" (errPairs tp err) = errTagValue tp err := by
    cases err with
    | none => simp [errPairs, errTagValue, lookupLast]
    | some e =>
      by_cases hc : tp.cfg.errCheck.elim true (fun f => f e) <;>
        simp [errPairs, errTagValue, hc, lookupLast, Option.or]
  rw [span_eq_of_some tp ctx qtype query st err spanOpts sp hsp]
  simp only [Span.getTag, metaPairs, ambientPairs]
  simp [lookupLast_append, lookupLast, hopts', hcfg', hmeta', hamb', hana,
    hfix, herrv, oOr_assoc, oOr_none_right, oOr_none_left, oOr_some_left]

theorem tryTrace_isNone_eq (tp : traceParams) (ctx : Context) (qtype : QueryType)
    (query : String) (st : Nat) (err : Option Nat)
    (spanOpts : List StartSpanOption) :
    (tp.tryTrace ctx qtype query st err spanOpts).isNone = suppressed tp ctx qtype := by
  cases hx : suppressed tp ctx qtype
  · rw [tryTrace_char tp ctx qtype query st err spanOpts hx]
    rfl
  · rw [tryTrace_suppressed_eq_none tp ctx qtype query st err spanOpts hx]
    rfl

theorem optSpanID_marker (m : DBMPropagationMode) (sid : Nat) :
    optSpanID (withDBMTraceInjectedTag m ++ [.withSpanID sid]) = some sid := by
  cases m <;>
    simp [withDBMTraceInjectedTag, optSpanID, optSpanID_append, Option.or]

theorem optTags_marker (m : DBMPropagationMode) (sid : Nat) :
    optTags (withDBMTraceInjectedTag m ++ [.withSpanID sid]) =
      (if m = .full then [(keyDBMTraceInjected, TagValue.bool true)] else []) := by
  cases m <;> simp [withDBMTraceInjectedTag, optTags, optTags_append]

/-- The warning lines `injectComments` emits as a function of the carrier
state `Inject` left behind. -/
def injectWarnLogs (r : InjectResult) : List String :=
  match r.injectErr with
  | some _ => [warnMsg]
  | none => []

/-- Whether both halves of the diagnostic-task discipline hold on an
event trace: a task end is present exactly when runtime tracing is
enabled, and no span emission occurs after a task end (emission no later
than task end). -/
def taskDisciplineOK (enabled : Bool) (evs : List Event) : Bool :=
  (hasTaskEnd evs == enabled) && emitNoLaterThanTaskEnd evs

theorem taskDiscipline_shape (enabled : Bool) (pre : List Event)
    (nm op sql : String) (sp : Option Span)
    (hpre : pre = [] ∨ ∃ m cq, pre = [Event.injectedComment m cq]) :
    taskDisciplineOK enabled (pre ++ (taskStartEvents enabled nm ++
      ([.delegated op sql] ++ (spanEvents sp ++ taskEndEvents enabled nm)))) = true := by
  rcases hpre with h | ⟨m, cq, h⟩ <;> subst h <;> cases enabled <;> cases sp <;>
    simp [taskDisciplineOK, hasTaskEnd, taskStartEvents, taskEndEvents,
      spanEvents, emitNoLaterThanTaskEnd, isTaskEnd, isSpanFinished,
      List.any_append]

/-! ### Concrete fixtures used by counterexamples and witnesses -/

/-- An injector that appends a comment-free suffix, generates span id 7,
and never fails. -/
def envCx : Env :=
  { inject := fun _ q _ _ => ({ Query := q ++ " dbm", SpanID := 7, injectErr := none }),
    traceEnabled := true }

/-- An underlying transaction whose calls all succeed. -/
def pgxTxCx : PgxTx :=
  { execRes := fun _ => (1, none), queryRes := fun _ => (1, none),
    queryRowRes := fun _ => 1, prepareRes := fun _ _ => (1, none),
    commitRes := none, rollbackRes := none, copyFromRes := (1, none) }

/-- A non-suppressing configuration with full propagation mode. -/
def cfgCx : config :=
  { serviceName := "svc", spanName := "pg.query", analyticsRate := none,
    ignoreQueryTypes := none, childSpansOnly := false, errCheck := none,
    tags := none, dbmPropagationMode := .full }

def txCx : tracedTx := { Tx := pgxTxCx, tp := { cfg := cfgCx, meta := [] } }

def poolCx : LooselyTracedPool :=
  { Pool := { beginTxRes := (pgxTxCx, none) }, tp := { cfg := cfgCx, meta := [] } }

def ctxCx : Context := { ambientSpan := none, spanTags := none }

/-! ### The claims -/

/-- **C5**: span suppression is decided by, in order, the suppress-set
and the child-spans-only guard; any match yields zero spans, otherwise
exactly one span is created and it is finalized before the emitter
returns. -/
theorem claim_C5_suppression_precedence (tp : traceParams) (ctx : Context)
    (qtype : QueryType) (query : String) (st : Nat) (err : Option Nat)
    (spanOpts : List StartSpanOption) :
    ((tp.tryTrace ctx qtype query st err spanOpts).isNone = true ↔
      (tp.cfg.ignoreQueryTypes.any (fun ts => ts.contains qtype) = true ∨
        (tp.cfg.childSpansOnly = true ∧ ctx.ambientSpan = none))) ∧
    (tp.tryTrace ctx qtype query st err spanOpts).all (fun sp => sp.finished) = true := by
  constructor
  · rw [tryTrace_isNone_eq]
    simp [suppressed, Bool.or_eq_true, Bool.and_eq_true, Option.isNone_iff_eq_none]
  · cases hx : suppressed tp ctx qtype
    · rw [tryTrace_char tp ctx qtype query st err spanOpts hx]
      rfl
    · rw [tryTrace_suppressed_eq_none tp ctx qtype query st err spanOpts hx]
      rfl

/-- **C7**: Prepare always injects with a propagation mode no stronger
than service-only: a configured full mode is downgraded to service-only
before injection, any weaker configured mode is used unmodified, and the
mode actually used is never full. -/
theorem claim_C7_prepare_mode_downgrade (env : Env) (t : tracedTx)
    (ctx : Context) (start : Nat) (name query : String) :
    (tracedTx.Prepare env t ctx start name query).events.head? =
      some (.injectedComment
        (if t.tp.cfg.dbmPropagationMode = .full then DBMPropagationMode.service
         else t.tp.cfg.dbmPropagationMode)
        (t.tp.injectComments env ctx query
          (if t.tp.cfg.dbmPropagationMode = .full then DBMPropagationMode.service
           else t.tp.cfg.dbmPropagationMode)).1) ∧
    decide ((if t.tp.cfg.dbmPropagationMode = .full then DBMPropagationMode.service
      else t.tp.cfg.dbmPropagationMode) = DBMPropagationMode.full) = false := by
  constructor
  · simp [tracedTx.Prepare]
  · cases hm : t.tp.cfg.dbmPropagationMode <;> simp [hm]

/-- **C9**: a comment-injection failure is logged as a warning and
swallowed: the injector returns the carrier's (possibly rewritten) query
and span id regardless, the delegated database call still happens with
that query, and the wrapped operation's result and error are exactly the
underlying call's. -/
theorem claim_C9_inject_failure_swallowed (env : Env) (t : tracedTx)
    (ctx : Context) (start : Nat) (query : String) :
    (tracedTx.Exec env t ctx start query).result =
      t.Tx.execRes (t.tp.injectComments env ctx query t.tp.cfg.dbmPropagationMode).1 ∧
    Event.delegated "Exec"
        (t.tp.injectComments env ctx query t.tp.cfg.dbmPropagationMode).1 ∈
      (tracedTx.Exec env t ctx start query).events ∧
    (tracedTx.Exec env t ctx start query).logs =
      injectWarnLogs (env.inject ctx.ambientSpan query
        t.tp.cfg.dbmPropagationMode t.tp.cfg.serviceName) := by
  refine ⟨rfl, ?_, rfl⟩
  simp [tracedTx.Exec]

/-- **C4**: the span id the comment injector returns (the value embedded
in the injected SQL comment) is the same value recorded as the span-id
override of the span later created for that operation, for every
SQL-bearing operation. -/
theorem claim_C4_span_id_consistency (env : Env) (t : tracedTx)
    (ctx : Context) (start : Nat) (name query : String) :
    (∀ sp, (tracedTx.Exec env t ctx start query).span = some sp →
        sp.spanID = some (t.tp.injectComments env ctx query
          t.tp.cfg.dbmPropagationMode).2.1) ∧
    (∀ sp, (tracedTx.Query env t ctx start query).span = some sp →
        sp.spanID = some (t.tp.injectComments env ctx query
          t.tp.cfg.dbmPropagationMode).2.1) ∧
    (∀ sp, (tracedTx.QueryRow env t ctx start query).span = some sp →
        sp.spanID = some (t.tp.injectComments env ctx query
          t.tp.cfg.dbmPropagationMode).2.1) ∧
    (∀ sp, (tracedTx.Prepare env t ctx start name query).span = some sp →
        sp.spanID = some (t.tp.injectComments env ctx query
          (if t.tp.cfg.dbmPropagationMode = .full then DBMPropagationMode.service
           else t.tp.cfg.dbmPropagationMode)).2.1) := by
  refine ⟨?_, ?_, ?_, ?_⟩ <;> intro sp hsp
  · simp only [tracedTx.Exec] at hsp
    rw [tryTrace_spanID _ _ _ _ _ _ _ _ hsp]
    exact optSpanID_marker _ _
  · simp only [tracedTx.Query] at hsp
    rw [tryTrace_spanID _ _ _ _ _ _ _ _ hsp]
    exact optSpanID_marker _ _
  · simp only [tracedTx.QueryRow] at hsp
    rw [tryTrace_spanID _ _ _ _ _ _ _ _ hsp]
    exact optSpanID_marker _ _
  · simp only [tracedTx.Prepare] at hsp
    rw [tryTrace_spanID _ _ _ _ _ _ _ _ hsp]
    exact optSpanID_marker _ _

/-- Witness for C4 at a concrete input: the injector generated span id 7
and the emitted Exec span carries exactly that id override. -/
theorem claim_C4_witness :
    ((tracedTx.Exec envCx txCx ctxCx 0 "INSERT").span.getD emptySpan).spanID =
      some (txCx.tp.injectComments envCx ctxCx "INSERT"
        txCx.tp.cfg.dbmPropagationMode).2.1 :=
  (claim_C4_span_id_consistency envCx txCx ctxCx 0 "nm" "INSERT").1
    ((tracedTx.Exec envCx txCx ctxCx 0 "INSERT").span.getD emptySpan)
    (by decide)

/-- **C2** counterexample: on a concrete Exec with runtime tracing
enabled and an emitted span, the claimed ordering (diagnostic-task end no
later than span emission) is violated: the deferred task end runs at
method return, after the emitter has already finished the span. -/
theorem claim_C2_counterexample :
    taskEndNoLaterThanEmit (tracedTx.Exec envCx txCx ctxCx 0 "INSERT").events = false ∧
    hasTaskEnd (tracedTx.Exec envCx txCx ctxCx 0 "INSERT").events = true ∧
    (spansOf (tracedTx.Exec envCx txCx ctxCx 0 "INSERT").events).length = 1 := by
  decide

/-- **C2** (amended): every traced operation that opens a diagnostic task
ends it on every exit path (a task end occurs exactly when runtime
tracing is enabled), and span emission happens no later than the task end
— the task end, fired by the deferred callback at method return, never
precedes the span emission. -/
theorem claim_C2_amended_task_discipline (env : Env) (p : LooselyTracedPool)
    (t : tracedTx) (ctx : Context) (start : Nat) (name query tbl : String) :
    taskDisciplineOK env.traceEnabled (LooselyTracedPool.BeginTx env p ctx start).events = true ∧
    taskDisciplineOK env.traceEnabled (tracedTx.Prepare env t ctx start name query).events = true ∧
    taskDisciplineOK env.traceEnabled (tracedTx.Exec env t ctx start query).events = true ∧
    taskDisciplineOK env.traceEnabled (tracedTx.Query env t ctx start query).events = true ∧
    taskDisciplineOK env.traceEnabled (tracedTx.QueryRow env t ctx start query).events = true ∧
    taskDisciplineOK env.traceEnabled (tracedTx.Commit env t ctx start).events = true ∧
    taskDisciplineOK env.traceEnabled (tracedTx.Rollback env t ctx start).events = true ∧
    taskDisciplineOK env.traceEnabled (tracedTx.CopyFrom env t ctx start tbl).events = true := by
  refine ⟨?_, ?_, ?_, ?_, ?_, ?_, ?_, ?_⟩
  · simp only [LooselyTracedPool.BeginTx, List.append_assoc]
    exact taskDiscipline_shape _ [] _ _ _ _ (Or.inl rfl)
  · simp only [tracedTx.Prepare, List.append_assoc]
    exact taskDiscipline_shape _ _ _ _ _ _ (Or.inr ⟨_, _, rfl⟩)
  · simp only [tracedTx.Exec, List.append_assoc]
    exact taskDiscipline_shape _ _ _ _ _ _ (Or.inr ⟨_, _, rfl⟩)
  · simp only [tracedTx.Query, List.append_assoc]
    exact taskDiscipline_shape _ _ _ _ _ _ (Or.inr ⟨_, _, rfl⟩)
  · simp only [tracedTx.QueryRow, List.append_assoc]
    exact taskDiscipline_shape _ _ _ _ _ _ (Or.inr ⟨_, _, rfl⟩)
  · simp only [tracedTx.Commit, List.append_assoc]
    exact taskDiscipline_shape _ [] _ _ _ _ (Or.inl rfl)
  · simp only [tracedTx.Rollback, List.append_assoc]
    exact taskDiscipline_shape _ [] _ _ _ _ (Or.inl rfl)
  · simp only [tracedTx.CopyFrom, List.append_assoc]
    exact taskDiscipline_shape _ [] _ _ _ _ (Or.inl rfl)

/-- A configuration whose static tags collide with the trace-injected
marker key: used to separate the code's merge order from the claimed
one. -/
def cfgC1 : config :=
  { serviceName := "svc", spanName := "pg.query", analyticsRate := none,
    ignoreQueryTypes := none, childSpansOnly := false, errCheck := none,
    tags := some [(keyDBMTraceInjected, TagValue.str "user")],
    dbmPropagationMode := .full }

def txC1 : tracedTx := { Tx := pgxTxCx, tp := { cfg := cfgC1, meta := [] } }

/-- **C1** counterexample: with a static config tag on the marker key and
full propagation mode, the emitted Exec span's effective marker value is
the static config tag (config tags are appended after the caller-supplied
extra options and win), while the order stated by the claim (config tags
before the caller-supplied extras) would make the caller-supplied marker
win.  The two computed values differ. -/
theorem claim_C1_counterexample :
    ((tracedTx.Exec envCx txC1 ctxCx 0 "INSERT").span.getD emptySpan).getTag
        keyDBMTraceInjected = some (TagValue.str "user") ∧
    specC1MergeLookup keyDBMTraceInjected
        (cfgTagPairs txC1.tp) (analyticsPairs txC1.tp)
        (optTags (withDBMTraceInjectedTag txC1.tp.cfg.dbmPropagationMode ++
          [.withSpanID (txC1.tp.injectComments envCx ctxCx "INSERT"
            txC1.tp.cfg.dbmPropagationMode).2.1]))
        (metaPairs txC1.tp) (ambientPairs ctxCx) = some (TagValue.bool true) ∧
    decide (((tracedTx.Exec envCx txC1 ctxCx 0 "INSERT").span.getD emptySpan).getTag
        keyDBMTraceInjected =
      specC1MergeLookup keyDBMTraceInjected
        (cfgTagPairs txC1.tp) (analyticsPairs txC1.tp)
        (optTags (withDBMTraceInjectedTag txC1.tp.cfg.dbmPropagationMode ++
          [.withSpanID (txC1.tp.injectComments envCx ctxCx "INSERT"
            txC1.tp.cfg.dbmPropagationMode).2.1]))
        (metaPairs txC1.tp) (ambientPairs ctxCx)) = false := by
  decide

/-- **C1** (amended): for every key the emitter does not itself assign,
the emitted span's effective tag value is the last-wins merge over the
sources in this order: caller-supplied extra options first, then static
config tags, then the analytics sample-rate tag (present only when the
configured rate is a valid number), then per-facade metadata, then
ambient context tags last. -/
theorem claim_C1_amended_merge_order (tp : traceParams) (ctx : Context)
    (qtype : QueryType) (query : String) (st : Nat) (err : Option Nat)
    (spanOpts : List StartSpanOption) (k : String) (sp : Span)
    (hres : k ∉ reservedSpanKeys)
    (hsp : tp.tryTrace ctx qtype query st err spanOpts = some sp) :
    sp.getTag k = lookupLast k (optTags spanOpts ++ cfgTagPairs tp ++
      analyticsPairs tp ++ metaPairs tp ++ ambientPairs ctx) :=
  tryTrace_getTag_merge tp ctx qtype query st err spanOpts sp k hres hsp

/-- Fixtures for the C1 witness: the same user key in static config tags,
caller extras, per-facade metadata and ambient tags; the ambient value
wins. -/
def cfgC1w : config :=
  { serviceName := "svc", spanName := "pg.query", analyticsRate := none,
    ignoreQueryTypes := none, childSpansOnly := false, errCheck := none,
    tags := some [("user.key", TagValue.str "cfg")],
    dbmPropagationMode := .disabled }

def tpC1w : traceParams := { cfg := cfgC1w, meta := [("user.key", "meta")] }

def ctxC1w : Context :=
  { ambientSpan := none, spanTags := some [("user.key", "amb")] }

/-- Witness for the amended C1 at a concrete input: with all five sources
assigning "user.key", the ambient tag (last source) wins. -/
theorem claim_C1_witness :
    ((tpC1w.tryTrace ctxC1w "Exec" "q" 0 none
        [.tag "user.key" (.str "extra")]).getD emptySpan).getTag "user.key" =
      some (TagValue.str "amb") := by
  have h := claim_C1_amended_merge_order tpC1w ctxC1w "Exec" "q" 0 none
    [.tag "user.key" (.str "extra")] "user.key"
    ((tpC1w.tryTrace ctxC1w "Exec" "q" 0 none
      [.tag "user.key" (.str "extra")]).getD emptySpan)
    (by decide) (by decide)
  rw [h]
  decide

/-- **C3**: each SQL-bearing operation hands the underlying transaction
the rewritten SQL while the span emitter sees the original text, so the
emitted span's resource name is the original text when non-empty and the
operation kind's name when empty (Begin, Commit, Rollback). -/
theorem claim_C3_original_sql_resource (env : Env) (p : LooselyTracedPool)
    (t : tracedTx) (ctx : Context) (start : Nat) (name query : String)
    (hmt : "resource.name" ∉ t.tp.meta.map Prod.fst)
    (hmp : "resource.name" ∉ p.tp.meta.map Prod.fst)
    (hamb : "resource.name" ∉ (ctx.spanTags.getD []).map Prod.fst) :
    (Event.delegated "Exec"
        (t.tp.injectComments env ctx query t.tp.cfg.dbmPropagationMode).1 ∈
        (tracedTx.Exec env t ctx start query).events ∧
      ∀ sp, (tracedTx.Exec env t ctx start query).span = some sp →
        sp.getTag "resource.name" =
          some (.str (if query = "" then QueryTypeExec else query))) ∧
    (Event.delegated "Query"
        (t.tp.injectComments env ctx query t.tp.cfg.dbmPropagationMode).1 ∈
        (tracedTx.Query env t ctx start query).events ∧
      ∀ sp, (tracedTx.Query env t ctx start query).span = some sp →
        sp.getTag "resource.name" =
          some (.str (if query = "" then QueryTypeQuery else query))) ∧
    (Event.delegated "QueryRow"
        (t.tp.injectComments env ctx query t.tp.cfg.dbmPropagationMode).1 ∈
        (tracedTx.QueryRow env t ctx start query).events ∧
      ∀ sp, (tracedTx.QueryRow env t ctx start query).span = some sp →
        sp.getTag "resource.name" =
          some (.str (if query = "" then QueryTypeQuery else query))) ∧
    (Event.delegated "Prepare"
        (t.tp.injectComments env ctx query
          (if t.tp.cfg.dbmPropagationMode = .full then DBMPropagationMode.service
           else t.tp.cfg.dbmPropagationMode)).1 ∈
        (tracedTx.Prepare env t ctx start name query).events ∧
      ∀ sp, (tracedTx.Prepare env t ctx start name query).span = some sp →
        sp.getTag "resource.name" =
          some (.str (if query = "" then QueryTypePrepare else query))) ∧
    (∀ sp, (LooselyTracedPool.BeginTx env p ctx start).span = some sp →
      sp.getTag "resource.name" = some (.str QueryTypeBegin)) ∧
    (∀ sp, (tracedTx.Commit env t ctx start).span = some sp →
      sp.getTag "resource.name" = some (.str QueryTypeCommit)) ∧
    (∀ sp, (tracedTx.Rollback env t ctx start).span = some sp →
      sp.getTag "resource.name" = some (.str QueryTypeRollback)) := by
  refine ⟨⟨?_, ?_⟩, ⟨?_, ?_⟩, ⟨?_, ?_⟩, ⟨?_, ?_⟩, ?_, ?_, ?_⟩
  · simp [tracedTx.Exec]
  · intro sp hsp
    simp only [tracedTx.Exec] at hsp
    exact tryTrace_resource _ _ _ _ _ _ _ _ hmt hamb hsp
  · simp [tracedTx.Query]
  · intro sp hsp
    simp only [tracedTx.Query] at hsp
    exact tryTrace_resource _ _ _ _ _ _ _ _ hmt hamb hsp
  · simp [tracedTx.QueryRow]
  · intro sp hsp
    simp only [tracedTx.QueryRow] at hsp
    exact tryTrace_resource _ _ _ _ _ _ _ _ hmt hamb hsp
  · simp [tracedTx.Prepare]
  · intro sp hsp
    simp only [tracedTx.Prepare] at hsp
    exact tryTrace_resource _ _ _ _ _ _ _ _ hmt hamb hsp
  · intro sp hsp
    simp only [LooselyTracedPool.BeginTx] at hsp
    simpa using tryTrace_resource _ _ _ _ _ _ _ _ hmp hamb hsp
  · intro sp hsp
    simp only [tracedTx.Commit] at hsp
    simpa using tryTrace_resource _ _ _ _ _ _ _ _ hmt hamb hsp
  · intro sp hsp
    simp only [tracedTx.Rollback] at hsp
    simpa using tryTrace_resource _ _ _ _ _ _ _ _ hmt hamb hsp

/-- Witness for C3 at a concrete input: the Exec span's resource name is
the original query text even though the underlying call received the
rewritten query. -/
theorem claim_C3_witness :
    ((tracedTx.Exec envCx txCx ctxCx 0 "INSERT").span.getD emptySpan).getTag
      "resource.name" = some (TagValue.str "INSERT") := by
  have h := (claim_C3_original_sql_resource envCx poolCx txCx ctxCx 0 "nm" "INSERT"
    (by decide) (by decide) (by decide)).1.2
    ((tracedTx.Exec envCx txCx ctxCx 0 "INSERT").span.getD emptySpan) (by decide)
  rw [h]
  decide

theorem errTagValue_isSome_iff (tp : traceParams) (err : Option Nat) :
    (∃ v, errTagValue tp err = some v) ↔
      (∃ e, err = some e ∧ (tp.cfg.errCheck = none ∨
        ∃ f, tp.cfg.errCheck = some f ∧ f e = true)) := by
  cases err with
  | none => simp [errTagValue]
  | some e =>
    cases hf : tp.cfg.errCheck with
    | none => simp [errTagValue, hf, Option.elim]
    | some f =>
      by_cases hc : f e <;> simp [errTagValue, hf, Option.elim, hc]

/-- **C6**: the emitted Exec span carries an error tag iff the underlying
error is non-nil and either no classifier is configured or it returns
true for that error; and the error returned to the caller is exactly the
underlying one. -/
theorem claim_C6_error_tag (env : Env) (t : tracedTx) (ctx : Context)
    (start : Nat) (query : String)
    (hcfg : "error" ∉ (cfgTagPairs t.tp).map Prod.fst)
    (hmeta : "error" ∉ t.tp.meta.map Prod.fst)
    (hamb : "error" ∉ (ctx.spanTags.getD []).map Prod.fst) :
    (tracedTx.Exec env t ctx start query).result.2 =
      (t.Tx.execRes (t.tp.injectComments env ctx query
        t.tp.cfg.dbmPropagationMode).1).2 ∧
    ∀ sp, (tracedTx.Exec env t ctx start query).span = some sp →
      (sp.getTag "error" = errTagValue t.tp
        (t.Tx.execRes (t.tp.injectComments env ctx query
          t.tp.cfg.dbmPropagationMode).1).2 ∧
      ((∃ v, sp.getTag "error" = some v) ↔
        (∃ e, (t.Tx.execRes (t.tp.injectComments env ctx query
            t.tp.cfg.dbmPropagationMode).1).2 = some e ∧
          (t.tp.cfg.errCheck = none ∨
            ∃ f, t.tp.cfg.errCheck = some f ∧ f e = true)))) := by
  refine ⟨rfl, ?_⟩
  intro sp hsp
  simp only [tracedTx.Exec] at hsp
  have hopts : "error" ∉ (optTags (withDBMTraceInjectedTag
      t.tp.cfg.dbmPropagationMode ++
      [.withSpanID (t.tp.injectComments env ctx query
        t.tp.cfg.dbmPropagationMode).2.1])).map Prod.fst := by
    rw [optTags_marker]
    split <;> decide
  have h := tryTrace_errorTag _ _ _ _ _ _ _ _ hopts hcfg hmeta hamb hsp
  refine ⟨h, ?_⟩
  rw [h]
  exact errTagValue_isSome_iff t.tp _

/-- Fixtures for the C6 witness: the underlying Exec fails with error 5,
and the classifier reports error 5 as benign. -/
def pgxTxErr : PgxTx :=
  { execRes := fun _ => (2, some 5), queryRes := fun _ => (2, some 5),
    queryRowRes := fun _ => 2, prepareRes := fun _ _ => (2, some 5),
    commitRes := some 5, rollbackRes := some 5, copyFromRes := (2, some 5) }

def cfgC6 : config :=
  { serviceName := "svc", spanName := "pg.query", analyticsRate := none,
    ignoreQueryTypes := none, childSpansOnly := false,
    errCheck := some (fun e => !(e == 5)), tags := none,
    dbmPropagationMode := .disabled }

def txC6 : tracedTx := { Tx := pgxTxErr, tp := { cfg := cfgC6, meta := [] } }

/-- Witness for C6 at a concrete input: the call fails with error 5, the
classifier returns false for it, the span carries no error tag, and the
error is still returned to the caller. -/
theorem claim_C6_witness :
    (tracedTx.Exec envCx txC6 ctxCx 0 "INSERT").result.2 = some 5 ∧
    ((tracedTx.Exec envCx txC6 ctxCx 0 "INSERT").span.getD emptySpan).getTag
      "error" = none := by
  have h := claim_C6_error_tag envCx txC6 ctxCx 0 "INSERT"
    (by decide) (by decide) (by decide)
  refine ⟨?_, ?_⟩
  · rw [h.1]
    decide
  · have h2 := (h.2 ((tracedTx.Exec envCx txC6 ctxCx 0 "INSERT").span.getD emptySpan)
      (by decide)).1
    rw [h2]
    decide

/-- **C8**: QueryRow invokes the emitter with a nil error, so a QueryRow
span never carries an error tag. -/
theorem claim_C8_queryrow_no_error (env : Env) (t : tracedTx) (ctx : Context)
    (start : Nat) (query : String)
    (hcfg : "error" ∉ (cfgTagPairs t.tp).map Prod.fst)
    (hmeta : "error" ∉ t.tp.meta.map Prod.fst)
    (hamb : "error" ∉ (ctx.spanTags.getD []).map Prod.fst) :
    ∀ sp, (tracedTx.QueryRow env t ctx start query).span = some sp →
      sp.getTag "error" = none := by
  intro sp hsp
  simp only [tracedTx.QueryRow] at hsp
  have hopts : "error" ∉ (optTags (withDBMTraceInjectedTag
      t.tp.cfg.dbmPropagationMode ++
      [.withSpanID (t.tp.injectComments env ctx query
        t.tp.cfg.dbmPropagationMode).2.1])).map Prod.fst := by
    rw [optTags_marker]
    split <;> decide
  have h := tryTrace_errorTag _ _ _ _ _ _ _ _ hopts hcfg hmeta hamb hsp
  rw [h]
  rfl

/-- Witness for C8 at a concrete input: the QueryRow span exists and has
no error tag. -/
theorem claim_C8_witness :
    ((tracedTx.QueryRow envCx txCx ctxCx 0 "SELECT").span.getD emptySpan).getTag
      "error" = none :=
  claim_C8_queryrow_no_error envCx txCx ctxCx 0 "SELECT"
    (by decide) (by decide) (by decide)
    ((tracedTx.QueryRow envCx txCx ctxCx 0 "SELECT").span.getD emptySpan)
    (by decide)

/-- **C10**: a Prepare span never carries the trace-injected marker (the
marker is computed from the downgraded mode), while Exec, Query and
QueryRow spans carry it exactly when the configured mode is full. -/
theorem claim_C10_dbm_marker (env : Env) (t : tracedTx) (ctx : Context)
    (start : Nat) (name query : String)
    (hcfg : keyDBMTraceInjected ∉ (cfgTagPairs t.tp).map Prod.fst)
    (hmeta : keyDBMTraceInjected ∉ t.tp.meta.map Prod.fst)
    (hamb : keyDBMTraceInjected ∉ (ctx.spanTags.getD []).map Prod.fst) :
    (∀ sp, (tracedTx.Prepare env t ctx start name query).span = some sp →
      sp.getTag keyDBMTraceInjected = none) ∧
    (∀ sp, (tracedTx.Exec env t ctx start query).span = some sp →
      sp.getTag keyDBMTraceInjected =
        (if t.tp.cfg.dbmPropagationMode = .full
         then some (TagValue.bool true) else none)) ∧
    (∀ sp, (tracedTx.Query env t ctx start query).span = some sp →
      sp.getTag keyDBMTraceInjected =
        (if t.tp.cfg.dbmPropagationMode = .full
         then some (TagValue.bool true) else none)) ∧
    (∀ sp, (tracedTx.QueryRow env t ctx start query).span = some sp →
      sp.getTag keyDBMTraceInjected =
        (if t.tp.cfg.dbmPropagationMode = .full
         then some (TagValue.bool true) else none)) := by
  have hc := lookupLast_eq_none keyDBMTraceInjected (cfgTagPairs t.tp) hcfg
  have hm := lookupLast_strPairs_eq_none keyDBMTraceInjected t.tp.meta hmeta
  have ha := lookupLast_strPairs_eq_none keyDBMTraceInjected
    (ctx.spanTags.getD []) hamb
  have han := lookupLast_analyticsPairs_eq_none keyDBMTraceInjected t.tp (by decide)
  refine ⟨?_, ?_, ?_, ?_⟩ <;> intro sp hsp
  · simp only [tracedTx.Prepare] at hsp
    rw [tryTrace_getTag_merge _ _ _ _ _ _ _ _ keyDBMTraceInjected (by decide) hsp]
    simp only [lookupLast_append, metaPairs, ambientPairs, hc, hm, ha, han,
      oOr_none_left, oOr_none_right]
    rw [optTags_marker]
    cases hmode : t.tp.cfg.dbmPropagationMode <;> simp [hmode, lookupLast]
  · simp only [tracedTx.Exec] at hsp
    rw [tryTrace_getTag_merge _ _ _ _ _ _ _ _ keyDBMTraceInjected (by decide) hsp]
    simp only [lookupLast_append, metaPairs, ambientPairs, hc, hm, ha, han,
      oOr_none_left, oOr_none_right]
    rw [optTags_marker]
    cases hmode : t.tp.cfg.dbmPropagationMode <;>
      simp [hmode, lookupLast, Option.or]
  · simp only [tracedTx.Query] at hsp
    rw [tryTrace_getTag_merge _ _ _ _ _ _ _ _ keyDBMTraceInjected (by decide) hsp]
    simp only [lookupLast_append, metaPairs, ambientPairs, hc, hm, ha, han,
      oOr_none_left, oOr_none_right]
    rw [optTags_marker]
    cases hmode : t.tp.cfg.dbmPropagationMode <;>
      simp [hmode, lookupLast, Option.or]
  · simp only [tracedTx.QueryRow] at hsp
    rw [tryTrace_getTag_merge _ _ _ _ _ _ _ _ keyDBMTraceInjected (by decide) hsp]
    simp only [lookupLast_append, metaPairs, ambientPairs, hc, hm, ha, han,
      oOr_none_left, oOr_none_right]
    rw [optTags_marker]
    cases hmode : t.tp.cfg.dbmPropagationMode <;>
      simp [hmode, lookupLast, Option.or]

/-- Witness for C10 at a concrete input with full propagation mode: the
Prepare span carries no marker while the Exec span does. -/
theorem claim_C10_witness :
    ((tracedTx.Prepare envCx txCx ctxCx 0 "st" "INSERT").span.getD emptySpan).getTag
      keyDBMTraceInjected = none ∧
    ((tracedTx.Exec envCx txCx ctxCx 0 "INSERT").span.getD emptySpan).getTag
      keyDBMTraceInjected = some (TagValue.bool true) := by
  have h := claim_C10_dbm_marker envCx txCx ctxCx 0 "st" "INSERT"
    (by decide) (by decide) (by decide)
  refine ⟨h.1 _ (by decide), ?_⟩
  have h2 := h.2.1 ((tracedTx.Exec envCx txCx ctxCx 0 "INSERT").span.getD emptySpan)
    (by decide)
  rw [h2]
  decide

end PgxV5
